import Mathlib

/-!
Shallow embedding of the libxc-rs binding layer (src/error.rs, src/util.rs,
src/functional.rs).

The native libxc library is an external collaborator reached only through a
fixed C ABI; it is modelled as an environment `NativeEnv` recording the results
of each native entry point.  The facade functions of `src/util.rs` are pure
functions of that environment; panics (`unwrap`, usize underflow, allocation
aborts) are modelled as `Option.none`.  The handle constructors of
`src/functional.rs` additionally thread a fresh-pointer counter and emit the
trace of native allocation-family calls they perform, so that statements
about releasing the native allocation can be made precise.
-/

namespace LibxcRs

/-- The `as usize` cast applied to a (signed) integer value, as in
`number_of_functionals() as usize`: two's-complement reinterpretation into
the 64-bit unsigned range. -/
def usizeOfI32 (i : Int) : Nat := (i % (2 : Int) ^ 64).toNat

/-- Environment modelling the native libxc entry points used by the crate:
`xc_number_of_functionals`, the buffer contents written by
`xc_available_functional_numbers`, `xc_functional_get_number`,
`xc_functional_get_name` (decoded to text), `xc_func_init`'s status code for a
given `(id, polarization)`, and the info pointer returned by
`xc_func_get_info` for a given functional pointer. -/
structure NativeEnv where
  nFunctionals : Int
  enumEntry : Nat → Int
  getNumber : String → Int
  getNameById : Int → String
  funcInit : Int → Int → Int
  getInfo : Nat → Nat

/-- The error type of `src/error.rs` (enum `FunctionalError`): three variants. -/
inductive FunctionalError where
  | FailedInitialization : Int → FunctionalError
  | InvalidID : FunctionalError
  | InvalidName : FunctionalError
deriving DecidableEq, Repr

/-- Decidable equality for `Except`, used to evaluate the embedded functions
on concrete inputs. -/
instance {ε α : Type} [DecidableEq ε] [DecidableEq α] : DecidableEq (Except ε α) := fun a b =>
  match a, b with
  | Except.ok x, Except.ok y =>
    if h : x = y then isTrue (by rw [h]) else isFalse (fun hh => h (by injection hh))
  | Except.error x, Except.error y =>
    if h : x = y then isTrue (by rw [h]) else isFalse (fun hh => h (by injection hh))
  | Except.ok _, Except.error _ => isFalse (fun hh => Except.noConfusion hh)
  | Except.error _, Except.ok _ => isFalse (fun hh => Except.noConfusion hh)

/-- `util::functional_number`: calls `xc_functional_get_number` and maps a
negative result to `InvalidName`. -/
def functional_number (env : NativeEnv) (name : String) : Except FunctionalError Int :=
  let number := env.getNumber name
  if number < 0 then Except.error FunctionalError.InvalidName
  else Except.ok number

/-- `util::number_of_functionals`: passthrough of `xc_number_of_functionals`. -/
def number_of_functionals (env : NativeEnv) : Int := env.nFunctionals

/-- `util::available_functional_numbers`: computes
`length = (number_of_functionals() as usize) - 1`, allocates a buffer of that
capacity and reads `length` entries written by the native enumeration call.
`none` models the two non-returning paths of the source: the usize
subtraction underflow when the count is 0 (a panic under debug checks), and
the capacity-overflow abort of `Vec::with_capacity` when the byte size
`4 * length` exceeds `isize::MAX` (reachable when the count wrapped negative). -/
def available_functional_numbers (env : NativeEnv) : Option (List Int) :=
  let n_funcs := usizeOfI32 (number_of_functionals env)
  if n_funcs = 0 then none
  else
    let length := n_funcs - 1
    if 2 ^ 63 ≤ 4 * length then none
    else some ((List.range length).map env.enumEntry)

/-- `util::functional_name`: first enumerates all available ids; only when the
requested id is contained in that list does it call the native name lookup,
otherwise it fails with `InvalidID`.  The outer `Option` propagates the panic
of the enumeration. -/
def functional_name (env : NativeEnv) (number : Int) :
    Option (Except FunctionalError String) :=
  match available_functional_numbers env with
  | none => none
  | some numbers =>
    if numbers.contains number then some (Except.ok (env.getNameById number))
    else some (Except.error FunctionalError.InvalidID)

/-- The iterator body of `util::available_functional_names`: maps each id
through `functional_name(..).unwrap()`; any `Err` (or a panic below) is fatal
(`none`), never filtered out. -/
def collectNames (env : NativeEnv) : List Int → Option (List String)
  | [] => some []
  | n :: rest =>
    match functional_name env n with
    | some (Except.ok s) =>
      match collectNames env rest with
      | some l => some (s :: l)
      | none => none
    | _ => none

/-- `util::available_functional_names`: maps `available_functional_numbers()`
through `functional_name`, unwrapping each result. -/
def available_functional_names (env : NativeEnv) : Option (List String) :=
  match available_functional_numbers env with
  | none => none
  | some numbers => collectNames env numbers

/-- One native allocation-family call made by `src/functional.rs`, recording
its arguments and result: `xc_func_alloc` (returned pointer), `xc_func_init`
(pointer, id, polarization, status), `xc_func_get_info` (pointer, info
pointer), `xc_func_free` (pointer).  The crate never actually emits a
`funcFree` call; the constructor exists so that claims about releasing the
allocation can be stated. -/
inductive NativeCall where
  | funcAlloc : Nat → NativeCall
  | funcInit : Nat → Int → Int → Int → NativeCall
  | funcGetInfo : Nat → Nat → NativeCall
  | funcFree : Nat → NativeCall
deriving DecidableEq, Repr

/-- Whether a native call is a release (`xc_func_free`) of a functional
allocation. -/
def NativeCall.isFree : NativeCall → Bool
  | funcFree _ => true
  | _ => false

/-- `functional::Functional`: a pair of raw pointers, the owning `xc_func`
pointer and the non-owning `xc_info` pointer.  Pointers are modelled as
allocation identifiers. -/
structure Functional where
  xc_func : Nat
  xc_info : Nat
deriving DecidableEq, Repr

/-- The `#[derive(Clone)]` implementation on `Functional`: clones each field;
since both fields are raw pointers (which are `Copy`), both pointers are
copied unchanged. -/
def Functional.clone (f : Functional) : Functional :=
  { xc_func := f.xc_func, xc_info := f.xc_info }

/-- The native calls performed when a `Functional` is dropped: the crate
implements no `Drop` for `Functional`, and the compiler-generated drop glue
of a struct of raw pointers performs no calls, so the list is empty. -/
def Functional.dropNativeCalls (_f : Functional) : List NativeCall := []

/-- `functional::Polarization` (final design: closed enum). -/
inductive Polarization where
  | Unpolarized
  | Polarized
deriving DecidableEq, Repr

/-- The `ToPrimitive` mapping of `Polarization` (`to_i32().unwrap()`, total):
`Unpolarized = 1`, `Polarized = 2`. -/
def Polarization.toI32 : Polarization → Int
  | Unpolarized => 1
  | Polarized => 2

/-- `Functional::from_id`: converts the polarization, allocates a native
functional object (a fresh pointer `next`), initializes it, and on nonzero
status returns `FailedInitialization(status)` — without any `xc_func_free`
call; on zero status fetches the info pointer and returns the struct.
Returns (result, next fresh pointer, trace of native calls performed). -/
def from_id (env : NativeEnv) (id : Int) (pol : Polarization) (next : Nat) :
    Except FunctionalError Functional × Nat × List NativeCall :=
  let polarization := pol.toI32
  let xc_func := next
  let init_result := env.funcInit id polarization
  if init_result ≠ 0 then
    (Except.error (FunctionalError.FailedInitialization init_result), next + 1,
      [NativeCall.funcAlloc xc_func,
        NativeCall.funcInit xc_func id polarization init_result])
  else
    let xc_info := env.getInfo xc_func
    (Except.ok { xc_func := xc_func, xc_info := xc_info }, next + 1,
      [NativeCall.funcAlloc xc_func,
        NativeCall.funcInit xc_func id polarization init_result,
        NativeCall.funcGetInfo xc_func xc_info])

/-- `Functional::from_name`: resolves the name via `functional_number`,
delegating to `from_id` on success and returning the error unchanged on
failure (performing no native allocation-family call in that case). -/
def from_name (env : NativeEnv) (name : String) (pol : Polarization) (next : Nat) :
    Except FunctionalError Functional × Nat × List NativeCall :=
  match functional_number env name with
  | Except.ok number => from_id env number pol next
  | Except.error err => (Except.error err, next, [])

/-- Modelled from the spec: the contract of the external native library's
internal table (libxc itself, code outside this repository): every enumerated
id is non-negative, and the name table is a 1:1 mapping, i.e. looking up the
number of the name of an enumerated id gives back that id. -/
def NativeContract (env : NativeEnv) : Prop :=
  ∀ id ∈ (available_functional_numbers env).getD [],
    0 ≤ id ∧ env.getNumber (env.getNameById id) = id

/-- A concrete reference environment: 4 functionals reported, enumerated ids
1, 2, 3, a consistent name table, all initializations succeed. -/
def envRef : NativeEnv where
  nFunctionals := 4
  enumEntry := fun i => (i : Int) + 1
  getNumber := fun s =>
    if s = "slater" then 1 else if s = "vwn" then 2
    else if s = "gga_x_gam" then 3 else -1
  getNameById := fun n => if n = 1 then "slater" else if n = 2 then "vwn" else "gga_x_gam"
  funcInit := fun _ _ => 0
  getInfo := fun p => p + 100

/-- A concrete environment whose native initialization always fails with
status 1. -/
def envFail : NativeEnv where
  nFunctionals := 4
  enumEntry := fun i => (i : Int) + 1
  getNumber := fun _ => 1
  getNameById := fun _ => "slater"
  funcInit := fun _ _ => 1
  getInfo := fun p => p + 100

/-- A concrete environment in which the native library reports 0 functionals. -/
def envZero : NativeEnv where
  nFunctionals := 0
  enumEntry := fun _ => 0
  getNumber := fun _ => -1
  getNameById := fun _ => ""
  funcInit := fun _ _ => 0
  getInfo := fun p => p + 100

/-- The `Functional` value produced by `from_id envRef 1 Polarized 0`. -/
def funRef : Functional := { xc_func := 0, xc_info := 100 }


/-! Helper lemmas about the embedded facade functions. -/

/-- `List.contains` agrees with membership for integer lists. -/
theorem int_contains_iff_mem (l : List Int) (a : Int) : l.contains a = true ↔ a ∈ l := by
  simp [List.contains, List.elem_iff]

/-- Under the realistic bounds on the native count (at least 1, within the
positive i32 range), the enumeration succeeds and returns the first
`count - 1` buffer entries. -/
theorem available_functional_numbers_eq (env : NativeEnv)
    (h1 : 1 ≤ env.nFunctionals) (h2 : env.nFunctionals < 2 ^ 31) :
    available_functional_numbers env =
      some ((List.range (env.nFunctionals.toNat - 1)).map env.enumEntry) := by
  have e31 : (2 : Int) ^ 31 = 2147483648 := by norm_num
  have e64 : (2 : Int) ^ 64 = 18446744073709551616 := by norm_num
  have hu : usizeOfI32 (number_of_functionals env) = env.nFunctionals.toNat := by
    unfold usizeOfI32 number_of_functionals
    rw [Int.emod_eq_of_lt (by omega) (by rw [e64]; omega)]
  have hn1 : 1 ≤ env.nFunctionals.toNat := by omega
  have hn2 : env.nFunctionals.toNat < 2147483648 := by
    rw [e31] at h2; omega
  simp only [available_functional_numbers, hu]
  rw [if_neg (by omega), if_neg (by norm_num; omega)]

/-- When the requested id is one of the enumerated ids, `functional_name`
returns the decoded native name. -/
theorem functional_name_of_mem (env : NativeEnv) (nums : List Int)
    (hnums : available_functional_numbers env = some nums) (n : Int) (hn : n ∈ nums) :
    functional_name env n = some (Except.ok (env.getNameById n)) := by
  simp only [functional_name, hnums]
  rw [if_pos ((int_contains_iff_mem nums n).mpr hn)]

/-- When the requested id is not among the enumerated ids, `functional_name`
fails with `InvalidID`. -/
theorem functional_name_of_not_mem (env : NativeEnv) (nums : List Int)
    (hnums : available_functional_numbers env = some nums) (n : Int) (hn : n ∉ nums) :
    functional_name env n = some (Except.error FunctionalError.InvalidID) := by
  simp only [functional_name, hnums]
  rw [if_neg (fun hc => hn ((int_contains_iff_mem nums n).mp hc))]

/-- When every id of a list resolves, `collectNames` collects exactly the
mapped names, in order. -/
theorem collectNames_eq_map (env : NativeEnv) (l : List Int)
    (h : ∀ n ∈ l, functional_name env n = some (Except.ok (env.getNameById n))) :
    collectNames env l = some (l.map env.getNameById) := by
  induction l with
  | nil => rfl
  | cons n rest ih =>
    have hn := h n (List.mem_cons_self n rest)
    have hrest := ih (fun m hm => h m (List.mem_cons_of_mem n hm))
    simp [collectNames, hn, hrest]

/-! Claim theorems. -/

/-- C1: the claim says `clone` produces an independently-owned native
allocation with a distinct owning pointer.  The derived `Clone` instead
copies the owning raw pointer unchanged: the clone of the functional
constructed by `from_id envRef 1 Polarized 0` holds the very same `xc_func`
pointer (and the same `xc_info` pointer) as the original. -/
theorem C1_clone_duplicates_owning_pointer :
    (from_id envRef 1 Polarization.Polarized 0).1 = Except.ok funRef ∧
    funRef.clone.xc_func = funRef.xc_func ∧
    funRef.clone.xc_info = funRef.xc_info := by decide

/-- C2: on a nonzero native initialization status, `from_id` returns
`FailedInitialization` with that status and yields no `Functional`, but —
contrary to the claim — it does not discard the partially allocated native
memory: the trace of native calls on the error path contains no free. -/
theorem C2_error_path_leaks_allocation :
    (from_id envFail 1 Polarization.Polarized 0).1 =
      Except.error (FunctionalError.FailedInitialization 1) ∧
    (from_id envFail 1 Polarization.Polarized 0).2.2 =
      [NativeCall.funcAlloc 0, NativeCall.funcInit 0 1 2 1] ∧
    (∀ c ∈ (from_id envFail 1 Polarization.Polarized 0).2.2, c.isFree = false) := by decide

/-- C3 counterexample: the error surface is not limited to `InvalidName` and
`InvalidID` — `from_id` returns the third variant `FailedInitialization 1`
when native initialization fails with status 1, and that value is distinct
from both claimed variants. -/
theorem C3_counterexample :
    (from_id envFail 1 Polarization.Polarized 0).1 =
      Except.error (FunctionalError.FailedInitialization 1) ∧
    FunctionalError.FailedInitialization 1 ≠ FunctionalError.InvalidName ∧
    FunctionalError.FailedInitialization 1 ≠ FunctionalError.InvalidID := by decide

/-- C3 (amended): the public error type `FunctionalError` consists of exactly
three variants — `FailedInitialization (code)`, `InvalidID` and `InvalidName`
— and the `FailedInitialization` variant is reachable through `from_id`. -/
theorem C3_error_type_three_variants :
    (∀ e : FunctionalError, e = FunctionalError.InvalidName ∨ e = FunctionalError.InvalidID ∨
      ∃ c : Int, e = FunctionalError.FailedInitialization c) ∧
    (from_id envFail 1 Polarization.Polarized 0).1 =
      Except.error (FunctionalError.FailedInitialization 1) := by
  constructor
  · intro e
    cases e with
    | FailedInitialization c => exact Or.inr (Or.inr ⟨c, rfl⟩)
    | InvalidID => exact Or.inr (Or.inl rfl)
    | InvalidName => exact Or.inl rfl
  · decide

/-- C4: the claim says the native allocation is released exactly once when
the owning scope ends.  The crate implements no `Drop` for `Functional`, so
the full lifecycle of a successfully constructed handle — construction
followed by drop — performs no `xc_func_free` call at all: the allocation is
released zero times, not exactly once. -/
theorem C4_allocation_never_released :
    (from_id envRef 1 Polarization.Polarized 0).1 = Except.ok funRef ∧
    (∀ c ∈ (from_id envRef 1 Polarization.Polarized 0).2.2 ++ funRef.dropNativeCalls,
      c.isFree = false) := by decide

/-- C5: under the native-count bounds (at least 1, within the positive i32
range, so neither the underflow panic nor the allocation abort fires),
`available_functional_numbers` returns exactly `number_of_functionals() - 1`
ids, and `available_functional_names` returns a sequence of the same length
obtained by resolving each enumerated id through `functional_name` (each
per-id lookup succeeding; a failing one would abort the whole operation, as
`collectNames` shows, never be filtered out). -/
theorem C5_enumeration_lengths (env : NativeEnv)
    (h1 : 1 ≤ env.nFunctionals) (h2 : env.nFunctionals < 2 ^ 31) :
    ∃ nums,
      available_functional_numbers env = some nums ∧
      nums.length = (number_of_functionals env - 1).toNat ∧
      available_functional_names env = some (nums.map env.getNameById) ∧
      (nums.map env.getNameById).length = (number_of_functionals env - 1).toNat ∧
      ∀ n ∈ nums, functional_name env n = some (Except.ok (env.getNameById n)) := by
  have hnums := available_functional_numbers_eq env h1 h2
  have hall : ∀ n ∈ (List.range (env.nFunctionals.toNat - 1)).map env.enumEntry,
      functional_name env n = some (Except.ok (env.getNameById n)) :=
    fun n hn => functional_name_of_mem env _ hnums n hn
  have hlen : ((List.range (env.nFunctionals.toNat - 1)).map env.enumEntry).length
      = (number_of_functionals env - 1).toNat := by
    simp only [List.length_map, List.length_range, number_of_functionals]
    omega
  have hnames : available_functional_names env =
      some (((List.range (env.nFunctionals.toNat - 1)).map env.enumEntry).map
        env.getNameById) := by
    simp only [available_functional_names, hnums]
    exact collectNames_eq_map env _ hall
  exact ⟨_, hnums, hlen, hnames, by simpa using hlen, hall⟩

/-- C5 witness: the reference environment satisfies the hypotheses of
`C5_enumeration_lengths` and the conclusion holds there. -/
theorem C5_witness :
    ((1 : Int) ≤ envRef.nFunctionals ∧ envRef.nFunctionals < 2 ^ 31) ∧
    ∃ nums,
      available_functional_numbers envRef = some nums ∧
      nums.length = (number_of_functionals envRef - 1).toNat ∧
      available_functional_names envRef = some (nums.map envRef.getNameById) ∧
      (nums.map envRef.getNameById).length = (number_of_functionals envRef - 1).toNat ∧
      ∀ n ∈ nums, functional_name envRef n = some (Except.ok (envRef.getNameById n)) :=
  ⟨⟨by decide, by decide⟩, C5_enumeration_lengths envRef (by decide) (by decide)⟩

/-- C6: under the native-count bounds, `functional_name` fails with
`InvalidID` exactly when the requested id is not in the list returned by
`available_functional_numbers`; when the id is present it returns the decoded
native name, and in particular it fails with `InvalidID` at 0 whenever 0 is
not an enumerated id. -/
theorem C6_invalid_id_iff (env : NativeEnv) (id : Int)
    (h1 : 1 ≤ env.nFunctionals) (h2 : env.nFunctionals < 2 ^ 31) :
    ∃ nums,
      available_functional_numbers env = some nums ∧
      (functional_name env id = some (Except.error FunctionalError.InvalidID) ↔ id ∉ nums) ∧
      (id ∈ nums → functional_name env id = some (Except.ok (env.getNameById id))) ∧
      (0 ∉ nums → functional_name env 0 = some (Except.error FunctionalError.InvalidID)) := by
  have hnums := available_functional_numbers_eq env h1 h2
  refine ⟨_, hnums, ⟨?_, fun hm => functional_name_of_not_mem env _ hnums id hm⟩,
    fun hm => functional_name_of_mem env _ hnums id hm,
    fun h0 => functional_name_of_not_mem env _ hnums 0 h0⟩
  intro heq hm
  have hok := functional_name_of_mem env _ hnums id hm
  rw [hok] at heq
  simp at heq

/-- C6 witness: in the reference environment, whose enumerated ids are 1, 2,
3, the id 0 is rejected with `InvalidID`. -/
theorem C6_witness :
    ((1 : Int) ≤ envRef.nFunctionals ∧ envRef.nFunctionals < 2 ^ 31) ∧
    ∃ nums,
      available_functional_numbers envRef = some nums ∧
      (functional_name envRef 0 = some (Except.error FunctionalError.InvalidID) ↔ 0 ∉ nums) ∧
      (0 ∈ nums → functional_name envRef 0 = some (Except.ok (envRef.getNameById 0))) ∧
      (0 ∉ nums → functional_name envRef 0 = some (Except.error FunctionalError.InvalidID)) :=
  ⟨⟨by decide, by decide⟩, C6_invalid_id_iff envRef 0 (by decide) (by decide)⟩

/-- C7: `functional_number` fails with `InvalidName` exactly when the native
number-for-name lookup is negative, returns the non-negative native result
otherwise, and in particular rejects "INVALID_NAME" whenever the native
lookup maps it to a negative value (the native convention for unknown
names). -/
theorem C7_invalid_name_iff (env : NativeEnv) (name : String) :
    (functional_number env name = Except.error FunctionalError.InvalidName ↔
      env.getNumber name < 0) ∧
    (0 ≤ env.getNumber name → functional_number env name = Except.ok (env.getNumber name)) ∧
    (env.getNumber "INVALID_NAME" < 0 →
      functional_number env "INVALID_NAME" = Except.error FunctionalError.InvalidName) := by
  refine ⟨⟨?_, ?_⟩, ?_, ?_⟩
  · intro h
    by_contra hlt
    simp only [functional_number, if_neg hlt] at h
    exact Except.noConfusion h
  · intro h
    simp only [functional_number, if_pos h]
  · intro h
    simp only [functional_number, if_neg (by omega : ¬ env.getNumber name < 0)]
  · intro h
    simp only [functional_number, if_pos h]

/-- C7 witness: in the reference environment "INVALID_NAME" resolves to a
negative native number and is rejected, while "slater" resolves to 1. -/
theorem C7_witness :
    (envRef.getNumber "INVALID_NAME" < 0 ∧
      functional_number envRef "INVALID_NAME" = Except.error FunctionalError.InvalidName) ∧
    (0 ≤ envRef.getNumber "slater" ∧
      functional_number envRef "slater" = Except.ok (envRef.getNumber "slater")) :=
  ⟨⟨by decide, (C7_invalid_name_iff envRef "INVALID_NAME").2.2 (by decide)⟩,
    ⟨by decide, (C7_invalid_name_iff envRef "slater").2.1 (by decide)⟩⟩

/-- C8: for every id in the enumerated set, assuming the native library's
documented table contract (enumerated ids non-negative and name lookup
inverting id lookup), `functional_name` succeeds and `functional_number`
applied to the returned name gives back the original id. -/
theorem C8_roundtrip (env : NativeEnv)
    (hc : NativeContract env) (id : Int) (nums : List Int)
    (hnums : available_functional_numbers env = some nums) (hid : id ∈ nums) :
    functional_name env id = some (Except.ok (env.getNameById id)) ∧
    functional_number env (env.getNameById id) = Except.ok id := by
  have hmem : id ∈ (available_functional_numbers env).getD [] := by
    rw [hnums]; exact hid
  obtain ⟨hpos, hround⟩ := hc id hmem
  refine ⟨functional_name_of_mem env nums hnums id hid, ?_⟩
  simp only [functional_number, hround]
  rw [if_neg (by omega)]

/-- C8 witness: the reference environment satisfies the native table contract
and the round-trip holds there at id 1. -/
theorem C8_witness :
    NativeContract envRef ∧
    available_functional_numbers envRef = some [1, 2, 3] ∧
    functional_name envRef 1 = some (Except.ok (envRef.getNameById 1)) ∧
    functional_number envRef (envRef.getNameById 1) = Except.ok 1 := by
  have hc : NativeContract envRef := by unfold NativeContract; decide
  have h := C8_roundtrip envRef hc 1 [1, 2, 3] (by decide) (by decide)
  exact ⟨hc, by decide, h⟩

/-- C9: `from_name` resolves the name through `functional_number`; on failure
it returns exactly the same error unchanged (necessarily `InvalidName`,
performing no native allocation), and on success with number `n` its result
is exactly that of `from_id n`. -/
theorem C9_from_name_delegates (env : NativeEnv) (name : String)
    (pol : Polarization) (next : Nat) :
    (∀ e, functional_number env name = Except.error e →
      e = FunctionalError.InvalidName ∧
      from_name env name pol next = (Except.error e, next, [])) ∧
    (∀ n, functional_number env name = Except.ok n →
      from_name env name pol next = from_id env n pol next) := by
  constructor
  · intro e he
    have hinv : e = FunctionalError.InvalidName := by
      revert he
      simp only [functional_number]
      split
      · intro h
        injection h with h
        exact h.symm
      · intro h
        exact Except.noConfusion h
    refine ⟨hinv, ?_⟩
    simp only [from_name, he]
  · intro n hn
    simp only [from_name, hn]

/-- C9 witness: in the reference environment, `from_name` on an unknown name
returns `InvalidName` unchanged, and on "slater" equals `from_id` at 1. -/
theorem C9_witness :
    functional_number envRef "INVALID_NAME" = Except.error FunctionalError.InvalidName ∧
    from_name envRef "INVALID_NAME" Polarization.Polarized 0 =
      (Except.error FunctionalError.InvalidName, 0, []) ∧
    functional_number envRef "slater" = Except.ok 1 ∧
    from_name envRef "slater" Polarization.Polarized 0 =
      from_id envRef 1 Polarization.Polarized 0 := by
  have h1 : functional_number envRef "INVALID_NAME" =
      Except.error FunctionalError.InvalidName := by decide
  have h2 : functional_number envRef "slater" = Except.ok 1 := by decide
  exact ⟨h1,
    ((C9_from_name_delegates envRef "INVALID_NAME" Polarization.Polarized 0).1 _ h1).2,
    h2, (C9_from_name_delegates envRef "slater" Polarization.Polarized 0).2 1 h2⟩

/-- C10: `available_functional_numbers` is total only when the native count
is at least 1: at count 0 the usize subtraction underflows and the operation
does not return (modelled as `none`) rather than returning the empty list,
while for counts in the valid range it returns `count - 1` ids. -/
theorem C10_zero_count_not_total (env : NativeEnv) :
    (env.nFunctionals = 0 → available_functional_numbers env = none) ∧
    (1 ≤ env.nFunctionals → env.nFunctionals < 2 ^ 31 →
      ∃ nums, available_functional_numbers env = some nums ∧
        nums.length = (number_of_functionals env - 1).toNat) := by
  constructor
  · intro h0
    have hz : usizeOfI32 (number_of_functionals env) = 0 := by
      simp [usizeOfI32, number_of_functionals, h0]
    simp only [available_functional_numbers, hz, if_pos]
  · intro h1 h2
    refine ⟨_, available_functional_numbers_eq env h1 h2, ?_⟩
    simp only [List.length_map, List.length_range, number_of_functionals]
    omega

/-- C10 witness: the zero-count environment makes the enumeration
non-returning, and the reference environment returns 3 ids. -/
theorem C10_witness :
    available_functional_numbers envZero = none ∧
    ∃ nums, available_functional_numbers envRef = some nums ∧
      nums.length = (number_of_functionals envRef - 1).toNat :=
  ⟨(C10_zero_count_not_total envZero).1 (by decide),
    (C10_zero_count_not_total envRef).2 (by decide) (by decide)⟩

end LibxcRs
